import Mathlib

/-!
Shallow embedding of `src/moduledependency/parser.py`: the value types
`Token`, `ParsedImport` and `ParseError`, and the recursive-descent
`ImportParser` with its mutable cursor modelled by explicit state passing.
Python `while` loops are modelled with a fuel argument; every continuing
loop iteration strictly advances the cursor, so a fuel of
`tokens.length + 2` always suffices and the out-of-fuel branch is
unreachable on the fuel actually supplied.
-/

/-- A lexical token: a type tag (one of "identifier", "import", "from",
".", ",", "*", "other" for tokens produced by the tokeniser) together with
a payload string. The tokeniser's tests show that keyword tokens carry
the type tag itself as their value. -/
structure Token where
  type : String
  value : String
deriving DecidableEq

/-- A parsed import record (`ParsedImport` in the source): the module name
(`Option String` because Python may store `None` here) and the
relative-import flag. Equality is structural on both fields. -/
structure ParsedImport where
  moduleName : Option String
  relative : Bool
deriving DecidableEq

/-- The error raised on grammar violations (`ParseError` in the source);
it carries the human-readable message. -/
structure ParseError where
  message : String
deriving DecidableEq

/-- Modelled from the spec: the tokeniser (whose `Token` string conversion
the parser interpolates into two of its error messages via `str(token)`)
is not under `src/`; it is rendered from the token's type and value. No
theorem below depends on this rendering. -/
def tokenStr (t : Token) : String :=
  "(" ++ t.type ++ ", " ++ t.value ++ ")"

/-- Python's `"{}.{}".format` renders `None` as the string "None" and a
string as itself. -/
def pyFormat : Option String → String
  | some s => s
  | none => "None"

/-- The parser state (`ImportParser` in the source): the accumulated
records, the token list being parsed, and the cursor index. -/
structure ImportParser where
  foundImports : List ParsedImport
  tokens : List Token
  index : Nat
deriving DecidableEq

namespace ImportParser

/-- `ImportParser.clear`: reset the accumulated records, token list and
cursor index. -/
def clear (_ : ImportParser) : ImportParser :=
  { foundImports := [], tokens := [], index := 0 }

/-- `ImportParser.currentToken`: the token under the cursor, or `none`
when the cursor is past the end of the token list. -/
def currentToken (p : ImportParser) : Option Token :=
  p.tokens.get? p.index

/-- `ImportParser.nextToken`: advance the cursor by one and return the new
current token together with the new state. -/
def nextToken (p : ImportParser) : Option Token × ImportParser :=
  let q : ImportParser := { p with index := p.index + 1 }
  (q.currentToken, q)

/-- `ImportParser.addImport`: append a `ParsedImport` with the given
module name and relative flag to the accumulated records. -/
def addImport (p : ImportParser) (moduleName : Option String) (isRelative : Bool) : ImportParser :=
  { p with foundImports := p.foundImports ++ [⟨moduleName, isRelative⟩] }

/-- The `while True` loop of `parseDottedIdentifier`: alternates between
expecting an identifier (`lookingForDot = false`) and accepting a dot
(`lookingForDot = true`), accumulating the dotted name. A break exits
with the name and the state at the break; grammar violations raise. -/
def parseDottedLoop : Nat → ImportParser → String → Bool → Except ParseError (String × ImportParser)
  | 0, _, _, _ => .error ⟨"out of fuel"⟩
  | fuel + 1, p, name, lookingForDot =>
    if lookingForDot then
      match p.currentToken with
      | none => .ok (name, p)
      | some t =>
        if t.type = "identifier" then .ok (name, p)
        else if t.type = "." then parseDottedLoop fuel (p.nextToken).2 (name ++ ".") false
        else .ok (name, p)
    else
      match p.currentToken with
      | none => .error ⟨"Unexpected end of tokens - trailing dot operator"⟩
      | some t =>
        if t.type = "identifier" then parseDottedLoop fuel (p.nextToken).2 (name ++ t.value) true
        else if t.type = "." then .error ⟨"Invalid identifier - two consecutive dot operators present"⟩
        else .ok (name, p)

/-- `ImportParser.parseDottedIdentifier`: parse a series of identifiers
separated by dots, or the single wildcard token "*" (returned without
advancing the cursor); returns `none` when the accumulated name is
empty. -/
def parseDottedIdentifier (p : ImportParser) : Except ParseError (Option String × ImportParser) :=
  match p.currentToken with
  | none => .error ⟨"Unexpected end of tokens"⟩
  | some t =>
    if t.type = "*" then .ok (some "*", p)
    else if t.type ≠ "identifier" then .error ⟨"Dotted identifier must start with an identifier token"⟩
    else
      match parseDottedLoop (p.tokens.length + 1) p "" false with
      | .error e => .error e
      | .ok (name, q) => if name = "" then .ok (none, q) else .ok (some name, q)

/-- `ImportParser.parseImport`: skip the "import" keyword, parse one
dotted identifier and record it as an absolute import. -/
def parseImport (p : ImportParser) : Except ParseError ImportParser :=
  match (p.nextToken).2.parseDottedIdentifier with
  | .error e => .error e
  | .ok (moduleName, p2) => .ok (p2.addImport moduleName false)

/-- The `while` loop of `parseImportedObjects`: as long as the current
token is a comma, skip it and parse another dotted identifier. Each
iteration consumes the comma so the cursor strictly advances. -/
def parseObjectsLoop : Nat → ImportParser → List (Option String) → Except ParseError (List (Option String) × ImportParser)
  | 0, _, _ => .error ⟨"out of fuel"⟩
  | fuel + 1, p, acc =>
    match p.currentToken with
    | none => .ok (acc, p)
    | some t =>
      if t.type = "," then
        match (p.nextToken).2.parseDottedIdentifier with
        | .error e => .error e
        | .ok (obj, q) => parseObjectsLoop fuel q (acc ++ [obj])
      else .ok (acc, p)

/-- `ImportParser.parseImportedObjects`: parse a comma-separated series of
dotted identifiers, returning them in order (entries may be `none`, as in
the Python, when a dotted identifier parse produced `None`). -/
def parseImportedObjects (p : ImportParser) : Except ParseError (List (Option String) × ImportParser) :=
  match p.parseDottedIdentifier with
  | .error e => .error e
  | .ok (obj, p1) => parseObjectsLoop (p1.tokens.length + 1) p1 [obj]

/-- The continuation of `parseFrom` after the relative/absolute
disambiguation: parse the root module name, expect an "import" token
(without advancing past it, exactly as the source does), parse the
imported objects, and emit records with wildcard precedence. -/
def parseFromRest (p2 : ImportParser) (isRelative : Bool) : Except ParseError ImportParser :=
  match p2.parseDottedIdentifier with
  | .error e => .error e
  | .ok (rootModuleName, p3) =>
    if rootModuleName = none ∨ rootModuleName = some "" then
      .error ⟨"Module identifier should follow a \x27from\x27 keyword"⟩
    else
      match p3.currentToken with
      | none => .error ⟨"Unexpected end of tokens"⟩
      | some t2 =>
        if t2.type ≠ "import" then
          .error ⟨"\x27import\x27 keyword should follow root moudle name in \x27from\x27 import statement: " ++ tokenStr t2⟩
        else
          match p3.parseImportedObjects with
          | .error e => .error e
          | .ok (importedObjects, p4) =>
            if importedObjects.length = 0 then
              .error ⟨"Poorly formed \x27from\x27 statement never imported any objects: " ++ tokenStr t2⟩
            else if (some "*") ∈ importedObjects then
              .ok (p4.addImport rootModuleName isRelative)
            else
              .ok (importedObjects.foldl
                (fun acc obj => acc.addImport (some (pyFormat rootModuleName ++ "." ++ pyFormat obj)) isRelative) p4)

/-- `ImportParser.parseFrom`: advance the cursor once; a "." there makes
the import relative (the dot is left under the cursor), otherwise the
cursor is moved back one step (landing on the token `parseFrom` was
invoked at, since the "from" keyword itself was never skipped). -/
def parseFrom (p : ImportParser) : Except ParseError ImportParser :=
  match (p.nextToken).2.currentToken with
  | none => .error ⟨"Unexpected end of tokens"⟩
  | some t =>
    if t.type = "." then parseFromRest (p.nextToken).2 true
    else parseFromRest { (p.nextToken).2 with index := (p.nextToken).2.index - 1 } false

/-- The `while token` loop of `parse`. The loop variable `tok` is
refreshed only in the fall-through branch, exactly as in the source: the
statement-parsing branches re-test the stale `tok`. -/
def parseLoop : Nat → Option Token → ImportParser → Except ParseError ImportParser
  | 0, _, _ => .error ⟨"out of fuel"⟩
  | fuel + 1, tok, p =>
    match tok with
    | none => .ok p
    | some t =>
      if t.type = "import" then
        match p.parseImport with
        | .error e => .error e
        | .ok q => parseLoop fuel tok q
      else if t.type = "from" then
        match p.parseFrom with
        | .error e => .error e
        | .ok q => parseLoop fuel tok q
      else
        parseLoop fuel (p.nextToken).1 (p.nextToken).2

/-- `ImportParser.parse`: on empty input return the empty record list
immediately; otherwise reset the state via `clear`, install the token
list, run the scanning loop and return the accumulated records. -/
def parse (p : ImportParser) (tokens : List Token) : Except ParseError (List ParsedImport) :=
  if tokens.length = 0 then .ok []
  else
    match parseLoop (tokens.length + 2)
        ({ p.clear with tokens := tokens } : ImportParser).currentToken
        { p.clear with tokens := tokens } with
    | .error e => .error e
    | .ok q => .ok q.foundImports

end ImportParser

/-- A freshly constructed `ImportParser` (the constructor calls `clear`). -/
def newImportParser : ImportParser := ⟨[], [], 0⟩

/-- Parsing a token list with a fresh parser, as callers of the module
do. -/
def parseTokens (tokens : List Token) : Except ParseError (List ParsedImport) :=
  newImportParser.parse tokens

/-- The "import" keyword token as produced by the tokeniser. -/
def tokImport : Token := ⟨"import", "import"⟩

/-- The "from" keyword token as produced by the tokeniser. -/
def tokFrom : Token := ⟨"from", "from"⟩

/-- The dot token as produced by the tokeniser: its type tag is ".". -/
def tokDot : Token := ⟨".", "."⟩

/-- The comma token as produced by the tokeniser: its type tag is ",". -/
def tokComma : Token := ⟨",", ","⟩

/-- The star (wildcard) token as produced by the tokeniser: its type tag
is "*". -/
def tokStar : Token := ⟨"*", "*"⟩

/-- An identifier token with the given text. -/
def tokId (s : String) : Token := ⟨"identifier", s⟩

/-- An "other" token with the given text. -/
def tokOther (s : String) : Token := ⟨"other", s⟩

/-! Helper lemmas about the embedded parser. -/

lemma nextToken_foundImports (p : ImportParser) :
    (p.nextToken).2.foundImports = p.foundImports := rfl

lemma parseDottedLoop_ok_foundImports :
    ∀ (fuel : Nat) (p : ImportParser) (name : String) (b : Bool) (m : String) (q : ImportParser),
      ImportParser.parseDottedLoop fuel p name b = .ok (m, q) → q.foundImports = p.foundImports := by
  intro fuel
  induction fuel with
  | zero =>
    intro p name b m q h
    simp [ImportParser.parseDottedLoop] at h
  | succ n ih =>
    intro p name b m q h
    simp only [ImportParser.parseDottedLoop] at h
    cases b with
    | true =>
      simp only [if_pos rfl] at h
      cases hc : p.currentToken with
      | none =>
        rw [hc] at h
        simp at h
        rw [← h.2]
      | some t =>
        rw [hc] at h
        by_cases h1 : t.type = "identifier"
        · simp [h1] at h
          rw [← h.2]
        · by_cases h2 : t.type = "."
          · simp [h1, h2] at h
            exact (ih _ _ _ _ _ h).trans (nextToken_foundImports p)
          · simp [h1, h2] at h
            rw [← h.2]
    | false =>
      simp only [Bool.false_eq_true, if_neg] at h
      cases hc : p.currentToken with
      | none =>
        rw [hc] at h
        simp at h
      | some t =>
        rw [hc] at h
        by_cases h1 : t.type = "identifier"
        · simp [h1] at h
          exact (ih _ _ _ _ _ h).trans (nextToken_foundImports p)
        · by_cases h2 : t.type = "."
          · simp [h1, h2] at h
          · simp [h1, h2] at h
            rw [← h.2]

lemma parseDottedIdentifier_ok_foundImports (p : ImportParser) (m : Option String)
    (q : ImportParser) (h : p.parseDottedIdentifier = .ok (m, q)) :
    q.foundImports = p.foundImports := by
  simp only [ImportParser.parseDottedIdentifier] at h
  cases hc : p.currentToken with
  | none => rw [hc] at h; simp at h
  | some t =>
    rw [hc] at h
    by_cases h1 : t.type = "*"
    · simp [h1] at h
      rw [← h.2]
    · by_cases h2 : t.type = "identifier"
      · simp [h1, h2] at h
        cases hl : ImportParser.parseDottedLoop (p.tokens.length + 1) p "" false with
        | error e => rw [hl] at h; simp at h
        | ok pr =>
          rw [hl] at h
          obtain ⟨name, q'⟩ := pr
          by_cases h3 : name = ""
          · simp [h3] at h
            rw [← h.2]
            exact parseDottedLoop_ok_foundImports _ _ _ _ _ _ hl
          · simp [h3] at h
            rw [← h.2]
            exact parseDottedLoop_ok_foundImports _ _ _ _ _ _ hl
      · simp [h1, h2] at h

lemma parseImport_ok_foundImports (p q : ImportParser) (h : p.parseImport = .ok q) :
    ∃ m, q.foundImports = p.foundImports ++ [⟨m, false⟩] := by
  simp only [ImportParser.parseImport] at h
  cases hd : (p.nextToken).2.parseDottedIdentifier with
  | error e => rw [hd] at h; simp at h
  | ok pr =>
    rw [hd] at h
    obtain ⟨m, p2⟩ := pr
    simp at h
    refine ⟨m, ?_⟩
    rw [← h]
    show p2.foundImports ++ [⟨m, false⟩] = p.foundImports ++ [⟨m, false⟩]
    rw [parseDottedIdentifier_ok_foundImports _ _ _ hd, nextToken_foundImports]

lemma parseDottedIdentifier_bad_start (p : ImportParser) (t : Token)
    (hc : p.currentToken = some t) (h1 : t.type ≠ "*") (h2 : t.type ≠ "identifier") :
    p.parseDottedIdentifier = .error ⟨"Dotted identifier must start with an identifier token"⟩ := by
  simp only [ImportParser.parseDottedIdentifier, hc]
  simp [h1, h2]

lemma parseFromRest_isError (p2 : ImportParser) (rel : Bool) :
    ∃ e, ImportParser.parseFromRest p2 rel = .error e := by
  simp only [ImportParser.parseFromRest]
  cases hd : p2.parseDottedIdentifier with
  | error e => exact ⟨e, rfl⟩
  | ok pr =>
    obtain ⟨root, p3⟩ := pr
    by_cases hroot : root = none ∨ root = some ""
    · simp [hroot]
    · simp only [if_neg hroot]
      cases hc : p3.currentToken with
      | none => exact ⟨_, rfl⟩
      | some t2 =>
        by_cases ht2 : t2.type = "import"
        · have hobj : p3.parseImportedObjects =
              .error ⟨"Dotted identifier must start with an identifier token"⟩ := by
            simp only [ImportParser.parseImportedObjects]
            rw [parseDottedIdentifier_bad_start p3 t2 hc (by rw [ht2]; decide) (by rw [ht2]; decide)]
          simp [ht2, hobj]
        · simp [ht2]

lemma parseFrom_isError (p : ImportParser) : ∃ e, p.parseFrom = .error e := by
  simp only [ImportParser.parseFrom]
  cases hc : (p.nextToken).2.currentToken with
  | none => exact ⟨_, rfl⟩
  | some t =>
    obtain ⟨e1, he1⟩ := parseFromRest_isError (p.nextToken).2 true
    obtain ⟨e2, he2⟩ :=
      parseFromRest_isError { (p.nextToken).2 with index := (p.nextToken).2.index - 1 } false
    by_cases h1 : t.type = "."
    · exact ⟨e1, by simp [h1, he1]⟩
    · exact ⟨e2, by simp [h1, he2]⟩

lemma parseLoop_ok_relative_false :
    ∀ (fuel : Nat) (tok : Option Token) (p q : ImportParser),
      ImportParser.parseLoop fuel tok p = .ok q →
      (∀ r ∈ p.foundImports, r.relative = false) →
      ∀ r ∈ q.foundImports, r.relative = false := by
  intro fuel
  induction fuel with
  | zero =>
    intro tok p q h
    simp [ImportParser.parseLoop] at h
  | succ n ih =>
    intro tok p q h hp
    simp only [ImportParser.parseLoop] at h
    cases tok with
    | none =>
      simp at h
      rw [← h]
      exact hp
    | some t =>
      by_cases h1 : t.type = "import"
      · simp only [h1, if_pos rfl] at h
        cases hi : p.parseImport with
        | error e => rw [hi] at h; simp at h
        | ok p2 =>
          rw [hi] at h
          refine ih _ _ _ h ?_
          obtain ⟨m, hm⟩ := parseImport_ok_foundImports p p2 hi
          intro r hr
          rw [hm] at hr
          rcases List.mem_append.mp hr with hr0 | hr1
          · exact hp r hr0
          · simp at hr1
            rw [hr1]
      · by_cases h2 : t.type = "from"
        · obtain ⟨e, he⟩ := parseFrom_isError p
          simp [h1, h2, he] at h
        · simp only [if_neg h1, if_neg h2] at h
          exact ih _ _ _ h hp

lemma parseLoop_no_keywords :
    ∀ (fuel : Nat) (p : ImportParser),
      (∀ t ∈ p.tokens, t.type ≠ "import" ∧ t.type ≠ "from") →
      p.index ≤ p.tokens.length →
      p.tokens.length + 1 ≤ p.index + fuel →
      ∃ q, ImportParser.parseLoop fuel p.currentToken p = .ok q ∧ q.foundImports = p.foundImports := by
  intro fuel
  induction fuel with
  | zero =>
    intro p _ hle hfuel
    omega
  | succ n ih =>
    intro p htok hle hfuel
    cases hc : p.currentToken with
    | none => exact ⟨p, by simp [ImportParser.parseLoop], rfl⟩
    | some t =>
      have hmem : t ∈ p.tokens := List.get?_mem hc
      have hlt : p.index < p.tokens.length := by
        obtain ⟨hlt, -⟩ := List.get?_eq_some.mp hc
        exact hlt
      obtain ⟨hni, hnf⟩ := htok t hmem
      have hrec := ih (p.nextToken).2 (by exact htok) (by
          show p.index + 1 ≤ p.tokens.length
          omega) (by
          show p.tokens.length + 1 ≤ p.index + 1 + n
          omega)
      obtain ⟨q, hq, hfi⟩ := hrec
      refine ⟨q, ?_, hfi⟩
      simp only [ImportParser.parseLoop, if_neg hni, if_neg hnf]
      exact hq

/-! Claim theorems. -/

/-- C1: evaluating the code at the claim's input. For the token sequence
[from, identifier "a", import, identifier "b"], `parse` does not return a
record at all: `parseFrom` never consumes the "from" keyword, so when the
lookahead token is not a dot the one-step rewind lands back on the "from"
token itself, which cannot start a dotted identifier, and a ParseError is
raised — contradicting the claimed result `[(a.b, absolute)]`. -/
theorem parse_from_a_import_b_raises :
    parseTokens [tokFrom, tokId "a", tokImport, tokId "b"] =
      .error ⟨"Dotted identifier must start with an identifier token"⟩ := rfl

/-- C2: evaluating the code at the claim's input. For the token sequence
[from, dot, import, identifier "h"], the leading dot is detected but never
consumed (the cursor stays on it), so the root-module parse starts at the
dot and raises a ParseError — contradicting the claimed single relative
record ("h", relative). -/
theorem parse_from_dot_import_h_raises :
    parseTokens [tokFrom, tokDot, tokImport, tokId "h"] =
      .error ⟨"Dotted identifier must start with an identifier token"⟩ := rfl

/-- C3: evaluating the code at the claim's input. For the token sequence
[from, identifier "g", import, identifier "dummy", comma, star], the
from-rule fails before the wildcard-precedence logic is ever reached (the
rewind lands on the "from" token), raising a ParseError instead of
returning the claimed single record ("g", absolute). -/
theorem parse_from_wildcard_raises :
    parseTokens [tokFrom, tokId "g", tokImport, tokId "dummy", tokComma, tokStar] =
      .error ⟨"Dotted identifier must start with an identifier token"⟩ := rfl

/-- C4: every run of the from-import rule raises a ParseError (whatever
the parser state), so whenever `parse` returns normally every record in
the returned sequence has `relative = false`; no invocation of `parse`
ever produces a record with `relative = true`. -/
theorem parse_never_emits_relative :
    (∀ p : ImportParser, ∃ e, p.parseFrom = Except.error e) ∧
    ∀ (p : ImportParser) (ts : List Token) (l : List ParsedImport),
      p.parse ts = .ok l → ∀ r ∈ l, r.relative = false := by
  refine ⟨parseFrom_isError, ?_⟩
  intro p ts l h r hr
  by_cases h0 : ts.length = 0
  · simp only [ImportParser.parse, if_pos h0] at h
    simp at h
    subst h
    simp at hr
  · simp only [ImportParser.parse, if_neg h0] at h
    cases hl : ImportParser.parseLoop (ts.length + 2)
        ({ p.clear with tokens := ts } : ImportParser).currentToken
        { p.clear with tokens := ts } with
    | error e => rw [hl] at h; simp at h
    | ok q =>
      rw [hl] at h
      simp at h
      refine parseLoop_ok_relative_false _ _ _ _ hl ?_ r (by rw [h]; exact hr)
      intro r0 hr0
      simp [ImportParser.clear] at hr0

/-- Witness for C4 at concrete inputs: the from-rule errors on the fresh
parser state, and a normally returning `parse` run (on a single
identifier token) yields a sequence whose members are all absolute. -/
theorem parse_never_emits_relative_witness :
    (∃ e, ImportParser.parseFrom ⟨[], [], 0⟩ = Except.error e) ∧
    ∀ r ∈ ([] : List ParsedImport), r.relative = false :=
  ⟨parse_never_emits_relative.1 ⟨[], [], 0⟩,
   parse_never_emits_relative.2 ⟨[], [], 0⟩ [tokId "x"] [] rfl⟩

/-- C5: evaluating the code at the claim's input. For the token sequence
[import, identifier "a", dot, identifier "b", dot, identifier "c"], the
record ("a.b.c", absolute) is added but the top-level loop never refreshes
its stale `token` variable after `parseImport`, re-dispatches on the old
"import" token, and the second `parseImport` runs off the end of the
tokens and raises — so `parse` raises instead of returning the claimed
single record. -/
theorem parse_import_abc_raises :
    parseTokens [tokImport, tokId "a", tokDot, tokId "b", tokDot, tokId "c"] =
      .error ⟨"Unexpected end of tokens"⟩ := rfl

/-- C6: evaluating the code at the claim's input. For the token sequence
[import, identifier "a", comma, identifier "b"], the stale-token loop
re-invokes `parseImport` (recording a spurious record for "b" along the
way) until it runs off the end of the tokens and raises — instead of the
claimed normal return with exactly one record ("a", absolute). -/
theorem parse_import_a_comma_b_raises :
    parseTokens [tokImport, tokId "a", tokComma, tokId "b"] =
      .error ⟨"Unexpected end of tokens"⟩ := rfl

/-- C7: the dotted-identifier rule raises on two consecutive dot tokens
(whatever identifier precedes them and whatever tokens follow), and on a
trailing dot at the end of the tokens; in both cases `parse` propagates
the ParseError. -/
theorem parse_consecutive_or_trailing_dots_raise :
    (∀ (v : String) (rest : List Token),
      parseTokens (tokImport :: tokId v :: tokDot :: tokDot :: rest) =
        .error ⟨"Invalid identifier - two consecutive dot operators present"⟩) ∧
    ∀ (v : String),
      parseTokens [tokImport, tokId v, tokDot] =
        .error ⟨"Unexpected end of tokens - trailing dot operator"⟩ :=
  ⟨fun _ _ => rfl, fun _ => rfl⟩

/-- Witness for C7 at a concrete input: the tokenisation of "import a..b"
raises the consecutive-dots ParseError. -/
theorem parse_consecutive_or_trailing_dots_raise_witness :
    parseTokens (tokImport :: tokId "a" :: tokDot :: tokDot :: [tokId "b"]) =
      .error ⟨"Invalid identifier - two consecutive dot operators present"⟩ :=
  parse_consecutive_or_trailing_dots_raise.1 "a" [tokId "b"]

/-- C8: evaluating the code at the claim's inputs. When no identifier can
be found at the current position (a dot under the cursor), the
dotted-identifier sub-parser raises a ParseError instead of returning
None; and when the sub-parser does produce an empty result (an
empty-valued identifier token), the from-rule raises on it instead of
treating it as a zero-length relative root. Both contradict the claim. -/
theorem parseDottedIdentifier_raises_without_identifier :
    (ImportParser.parseDottedIdentifier ⟨[], [tokDot], 0⟩ =
      .error ⟨"Dotted identifier must start with an identifier token"⟩) ∧
    ImportParser.parseFrom ⟨[], [Token.mk "identifier" "", tokImport], 0⟩ =
      .error ⟨"Module identifier should follow a \x27from\x27 keyword"⟩ :=
  ⟨rfl, rfl⟩

/-- C9: `parse` is a pure function of its token-sequence argument: two
invocations on the same or different parser states with equal token
sequences yield equal results (returned records or raised error), because
`parse` resets all cursor and record state via `clear` before scanning. -/
theorem parse_result_state_independent :
    ∀ (s₁ s₂ : ImportParser) (ts : List Token), s₁.parse ts = s₂.parse ts :=
  fun _ _ _ => rfl

/-- Witness for C9 at concrete inputs: a parser state left dirty by an
earlier run (stale record, stale tokens, advanced cursor) parses exactly
as a fresh parser does. -/
theorem parse_result_state_independent_witness :
    ImportParser.parse ⟨[⟨some "stale", true⟩], [tokDot], 7⟩ [tokImport] =
      ImportParser.parse ⟨[], [], 0⟩ [tokImport] :=
  parse_result_state_independent ⟨[⟨some "stale", true⟩], [tokDot], 7⟩ ⟨[], [], 0⟩ [tokImport]

/-- C10: for every token sequence containing no "import"-type and no
"from"-type token — including the empty sequence — `parse` returns the
empty record sequence without raising: every such token is advanced past
by the top-level loop. -/
theorem parse_no_keywords_ok :
    ∀ (p : ImportParser) (ts : List Token),
      (∀ t ∈ ts, t.type ≠ "import" ∧ t.type ≠ "from") →
      p.parse ts = .ok [] := by
  intro p ts hts
  by_cases h0 : ts.length = 0
  · simp only [ImportParser.parse, if_pos h0]
  · simp only [ImportParser.parse, if_neg h0]
    obtain ⟨q, hq, hfi⟩ :=
      parseLoop_no_keywords (ts.length + 2) { p.clear with tokens := ts }
        (fun t ht => hts t ht)
        (Nat.zero_le _)
        (by show ts.length + 1 ≤ 0 + (ts.length + 2); omega)
    rw [hq]
    show Except.ok q.foundImports = Except.ok []
    rw [hfi]
    rfl

/-- Witness for C10 at a concrete input: a token sequence of plain
identifiers and "other" tokens parses to the empty record sequence. -/
theorem parse_no_keywords_ok_witness :
    ImportParser.parse ⟨[], [], 0⟩ [tokId "x", tokOther ":", tokId "y"] = .ok [] :=
  parse_no_keywords_ok ⟨[], [], 0⟩ [tokId "x", tokOther ":", tokId "y"] (by decide)
